import Mathlib

/-!
Shallow embedding of the posts router of the Dev_Social_Network backend
(`routes/api/posts.js` together with the `checkObjectId` middleware).

The store is a list of `Post` documents; each route handler is a pure
function from the store (and the request data) to a response paired with
the updated store.  A JavaScript `TypeError` that is caught by a correct
`catch (err)` block is modelled as the 500 "Server Error" response with
the store unchanged.  Two handlers — `POST api/posts` and
`POST api/posts/comment/:post_id` — instead bind the exception as
`error` while their catch body reads `err.message`, so the catch itself
raises a ReferenceError and no response is ever sent; those handlers
return an `Option Resp`, with `none` for this crash (the store is
untouched, as the exception fires before any save).
-/

namespace DevSocial

/-- A like record: the `{user: ...}` object pushed by `PUT /posts/like/:id`. -/
structure LikeRec where
  user : String
deriving DecidableEq, Repr

/-- A comment sub-document `{id, user, text, name, avatar, date}`. -/
structure Comment where
  id : String
  user : String
  text : String
  name : String
  avatar : String
  date : Nat
deriving DecidableEq, Repr

/-- A `Post` document: author reference `user`, text, name/avatar snapshot,
likes, comments and creation timestamp. -/
structure Post where
  id : String
  user : String
  text : String
  name : String
  avatar : String
  likes : List LikeRec
  comments : List Comment
  date : Nat
deriving DecidableEq, Repr

/-- A `User` document (password projected away, as in `.select('-password')`). -/
structure User where
  id : String
  name : String
  avatar : String
deriving DecidableEq, Repr

/-- An HTTP response: status code and the `msg` field of the JSON body
(for validation failures we record the message of the error list). -/
structure Resp where
  status : Nat
  msg : Option String
deriving DecidableEq, Repr

/-- A hexadecimal digit. -/
def isHexChar (c : Char) : Bool :=
  (('0' ≤ c && c ≤ '9') || ('a' ≤ c && c ≤ 'f') || ('A' ≤ c && c ≤ 'F'))

/-- The `mongoose.Types.ObjectId.isValid` check: a 24 character hex string. -/
def isValidObjectId (s : String) : Bool :=
  s.length == 24 && s.toList.all isHexChar

/-- Replace the first element satisfying `p` by its image under `f`
(the semantics of mutating the document returned by a `find` /
`findByIdAndUpdate` on a unique id and saving it). -/
def updateFirst (p : α → Bool) (f : α → α) : List α → List α
  | [] => []
  | x :: xs => if p x then f x :: xs else x :: updateFirst p f xs

/-- Remove the first element satisfying `p` (the `indexOf` + `splice(i,1)`
idiom of the unlike handler). -/
def removeFirst (p : α → Bool) : List α → List α
  | [] => []
  | x :: xs => if p x then xs else x :: removeFirst p xs

/-- The `Post.findById` lookup. -/
def findPost (store : List Post) (pid : String) : Option Post :=
  store.find? (fun p => p.id == pid)

/-- Mutation performed by the post-edit handler: set the text. -/
def setPostText (t : String) : Post → Post :=
  fun q => { q with text := t }

/-- Mutation performed by the like handler: unshift a like record. -/
def addLikeTo (uid : String) : Post → Post :=
  fun q => { q with likes := { user := uid } :: q.likes }

/-- Mutation performed by the unlike handler: splice out the first like
by the user. -/
def removeLikeOf (uid : String) : Post → Post :=
  fun q => { q with likes := removeFirst (fun l => l.user == uid) q.likes }

/-- Mutation performed by the comment-add handler: unshift a comment. -/
def addCommentTo (c : Comment) : Post → Post :=
  fun q => { q with comments := c :: q.comments }

/-- Mutation performed by the comment-delete handler: filter out every
comment with the given id. -/
def removeCommentOf (cid : String) : Post → Post :=
  fun q => { q with comments := q.comments.filter (fun x => !(x.id == cid)) }

/-- Mutation performed by the comment-edit handler: set the text of the
first comment with the given id. -/
def setCommentText (cid t : String) : Post → Post :=
  fun q =>
    { q with comments :=
        updateFirst (fun x => x.id == cid) (fun x => { x with text := t }) q.comments }

def invalidIdResp : Resp := { status := 400, msg := some "Invalid ID" }

def textRequiredResp : Resp := { status := 400, msg := some "Text is required" }

def serverErrorResp : Resp := { status := 500, msg := some "Server Error" }

/-- Route `POST api/posts`: validate text, look up the author, append the new
post.  `newId`/`now` stand for the id and timestamp the schema assigns.
A missing user makes `user.name` raise, and this handler's catch block
binds the exception as `error` while reading `err.message`, so the catch
itself raises and no response is sent: modelled as `none`. -/
def createPost (users : List User) (store : List Post) (uid : String)
    (text : Option String) (newId : String) (now : Nat) :
    Option Resp × List Post :=
  match text with
  | none => (some textRequiredResp, store)
  | some t =>
    if t == "" then (some textRequiredResp, store)
    else
      match users.find? (fun u => u.id == uid) with
      | none => (none, store)
      | some u =>
        let newPost : Post :=
          { id := newId, user := uid, text := t, name := u.name,
            avatar := u.avatar, likes := [], comments := [], date := now }
        (some { status := 200, msg := none }, store ++ [newPost])

/-- Insertion step of the date-descending sort used by `GET api/posts`
(`Post.find().sort` on `date: -1`), newest first. -/
def insertDesc (p : Post) : List Post → List Post
  | [] => [p]
  | q :: qs => if q.date ≤ p.date then p :: q :: qs else q :: insertDesc p qs

/-- Sort the store by descending creation date. -/
def sortByDateDesc : List Post → List Post
  | [] => []
  | p :: ps => insertDesc p (sortByDateDesc ps)

/-- Route `GET api/posts`: the list returned in the 200 response body. -/
def getPosts (store : List Post) : List Post :=
  sortByDateDesc store

/-- Route `GET api/posts/:post_id`. -/
def getPost (store : List Post) (pid : String) : Resp × List Post :=
  if !isValidObjectId pid then (invalidIdResp, store)
  else
    match findPost store pid with
    | none => ({ status := 404, msg := some "Post not found" }, store)
    | some _ => ({ status := 200, msg := none }, store)

/-- Route `DELETE api/posts/:post_id`: 404 when absent, 401 for a non-owner,
otherwise `post.deleteOne()`. -/
def deletePost (store : List Post) (pid uid : String) : Resp × List Post :=
  if !isValidObjectId pid then (invalidIdResp, store)
  else
    match findPost store pid with
    | none => ({ status := 404, msg := some "Post not found" }, store)
    | some p =>
      if !(p.user == uid) then
        ({ status := 401, msg := some "User not authorized" }, store)
      else
        ({ status := 200, msg := some "Post Removed" },
         removeFirst (fun q => q.id == pid) store)

/-- Route `PUT api/posts/:post_id`: validate text then `findByIdAndUpdate`
setting `text`.  The handler performs no ownership check; `uid` is the
authenticated requester and is not consulted. -/
def updatePost (store : List Post) (pid uid : String) (text : Option String) :
    Resp × List Post :=
  if !isValidObjectId pid then (invalidIdResp, store)
  else
    match text with
    | none => (textRequiredResp, store)
    | some t =>
      if t == "" then (textRequiredResp, store)
      else
        match findPost store pid with
        | none => ({ status := 404, msg := some "Post not found" }, store)
        | some _ =>
          ({ status := 200, msg := none },
           updateFirst (fun q => q.id == pid) (setPostText t) store)

/-- Route `PUT api/posts/like/:post_id`.  A missing post is dereferenced
(`post.likes.some ...`), so it raises and is answered 500, not 404. -/
def likePost (store : List Post) (pid uid : String) : Resp × List Post :=
  if !isValidObjectId pid then (invalidIdResp, store)
  else
    match findPost store pid with
    | none => (serverErrorResp, store)
    | some p =>
      if p.likes.any (fun l => l.user == uid) then
        ({ status := 400, msg := some "Post already liked" }, store)
      else
        ({ status := 200, msg := none },
         updateFirst (fun q => q.id == pid) (addLikeTo uid) store)

/-- Route `PUT api/posts/unlike/:post_id`.  Same missing-post behaviour as
`likePost`; removal is `indexOf` of the first like by the user followed
by `splice(removeIndex, 1)`. -/
def unlikePost (store : List Post) (pid uid : String) : Resp × List Post :=
  if !isValidObjectId pid then (invalidIdResp, store)
  else
    match findPost store pid with
    | none => (serverErrorResp, store)
    | some p =>
      if !(p.likes.any (fun l => l.user == uid)) then
        ({ status := 400, msg := some "Post has not yet been liked" }, store)
      else
        ({ status := 200, msg := none },
         updateFirst (fun q => q.id == pid) (removeLikeOf uid) store)

/-- Route `POST api/posts/comment/:post_id`: no `checkObjectId` middleware is
installed on this route.  A missing user or post is dereferenced
(`user.name` / `post.comments.unshift`), and this handler's catch block
binds the exception as `error` while reading `err.message`, so the
catch itself raises and no response is sent: modelled as `none`.
`newCid`/`now` stand for the id and timestamp the schema assigns to the
new comment. -/
def addComment (users : List User) (store : List Post) (pid uid : String)
    (text : Option String) (newCid : String) (now : Nat) :
    Option Resp × List Post :=
  match text with
  | none => (some textRequiredResp, store)
  | some t =>
    if t == "" then (some textRequiredResp, store)
    else
      match users.find? (fun u => u.id == uid) with
      | none => (none, store)
      | some u =>
        match findPost store pid with
        | none => (none, store)
        | some _ =>
          (some { status := 200, msg := none },
           updateFirst (fun q => q.id == pid)
             (addCommentTo
               { id := newCid, user := uid, text := t, name := u.name,
                 avatar := u.avatar, date := now }) store)

/-- Route `DELETE api/posts/comment/:post_id/:comment_id`.  The handler reads
`post.comments` before its own `if (!post)` test, so a missing post
raises and is answered 500: the 404 "Post does not exist" branch is
unreachable. -/
def deleteComment (store : List Post) (pid cid uid : String) : Resp × List Post :=
  if !isValidObjectId pid then (invalidIdResp, store)
  else if !isValidObjectId cid then (invalidIdResp, store)
  else
    match findPost store pid with
    | none => (serverErrorResp, store)
    | some p =>
      match p.comments.find? (fun c => c.id == cid) with
      | none => ({ status := 404, msg := some "Comment does not exist" }, store)
      | some c =>
        if !(c.user == uid) then
          ({ status := 401, msg := some "User not authorized" }, store)
        else
          ({ status := 200, msg := none },
           updateFirst (fun q => q.id == pid) (removeCommentOf cid) store)

/-- Route `PUT api/posts/comment/:post_id/:comment_id`: validate text, find the
comment, check ownership, then mutate the text of the found comment.
Missing post: same unreachable 404 as in `deleteComment`, answered 500. -/
def editComment (store : List Post) (pid cid uid : String)
    (text : Option String) : Resp × List Post :=
  if !isValidObjectId pid then (invalidIdResp, store)
  else if !isValidObjectId cid then (invalidIdResp, store)
  else
    match text with
    | none => (textRequiredResp, store)
    | some t =>
      if t == "" then (textRequiredResp, store)
      else
        match findPost store pid with
        | none => (serverErrorResp, store)
        | some p =>
          match p.comments.find? (fun c => c.id == cid) with
          | none => ({ status := 404, msg := some "Comment does not exist" }, store)
          | some c =>
            if !(c.user == uid) then
              ({ status := 401, msg := some "User not authorized" }, store)
            else
              ({ status := 200, msg := none },
               updateFirst (fun q => q.id == pid) (setCommentText cid t) store)

/-! ### Helper lemmas about `updateFirst`, `removeFirst` and the sort -/

theorem find?_updateFirst {α : Type} (p : α → Bool) (f : α → α) (l : List α) (a : α)
    (h : l.find? p = some a) (hfa : p (f a) = true) :
    (updateFirst p f l).find? p = some (f a) := by
  induction l with
  | nil => simp at h
  | cons x xs ih =>
    cases hx : p x with
    | true =>
      rw [List.find?_cons_of_pos _ hx] at h
      injection h with h
      subst h
      simp [updateFirst, hx, List.find?_cons_of_pos _ hfa]
    | false =>
      have hnx : ¬ p x = true := by simp [hx]
      rw [List.find?_cons_of_neg _ hnx] at h
      simp [updateFirst, hx, List.find?_cons_of_neg _ hnx, ih h]

theorem filter_not_updateFirst {α : Type} (p : α → Bool) (f : α → α) (l : List α)
    (hpf : ∀ a, p a = true → p (f a) = true) :
    (updateFirst p f l).filter (fun a => !(p a)) = l.filter (fun a => !(p a)) := by
  induction l with
  | nil => rfl
  | cons x xs ih =>
    cases hx : p x with
    | true => simp [updateFirst, hx, List.filter_cons, hpf x hx]
    | false => simp [updateFirst, hx, List.filter_cons, ih]

theorem filter_not_removeFirst {α : Type} (p : α → Bool) (l : List α) :
    (removeFirst p l).filter (fun a => !(p a)) = l.filter (fun a => !(p a)) := by
  induction l with
  | nil => rfl
  | cons x xs ih =>
    cases hx : p x with
    | true => simp [removeFirst, hx, List.filter_cons]
    | false => simp [removeFirst, hx, List.filter_cons, ih]

theorem length_removeFirst_of_any {α : Type} (p : α → Bool) (l : List α)
    (h : l.any p = true) :
    (removeFirst p l).length + 1 = l.length := by
  induction l with
  | nil => simp at h
  | cons x xs ih =>
    cases hx : p x with
    | true => simp [removeFirst, hx]
    | false =>
      simp only [List.any_cons, hx, Bool.false_or] at h
      simp [removeFirst, hx, ih h]

theorem countP_removeFirst_of_any {α : Type} (p : α → Bool) (l : List α)
    (h : l.any p = true) :
    (removeFirst p l).countP p + 1 = l.countP p := by
  induction l with
  | nil => simp at h
  | cons x xs ih =>
    cases hx : p x with
    | true => simp [removeFirst, hx, List.countP_cons, hx]
    | false =>
      simp only [List.any_cons, hx, Bool.false_or] at h
      simp [removeFirst, hx, List.countP_cons, ih h]

theorem perm_insertDesc (p : Post) (l : List Post) :
    (insertDesc p l).Perm (p :: l) := by
  induction l with
  | nil => exact List.Perm.refl _
  | cons q qs ih =>
    by_cases hq : q.date ≤ p.date
    · simp [insertDesc, hq]
    · simp only [insertDesc, if_neg hq]
      exact (ih.cons q).trans (List.Perm.swap p q qs)

theorem sorted_insertDesc (p : Post) (l : List Post)
    (h : List.Sorted (fun a b : Post => b.date ≤ a.date) l) :
    List.Sorted (fun a b : Post => b.date ≤ a.date) (insertDesc p l) := by
  induction l with
  | nil => simp [insertDesc]
  | cons q qs ih =>
    rw [List.sorted_cons] at h
    by_cases hq : q.date ≤ p.date
    · simp only [insertDesc, if_pos hq]
      rw [List.sorted_cons]
      refine ⟨?_, List.sorted_cons.mpr h⟩
      intro b hb
      rcases List.mem_cons.mp hb with hb | hb
      · exact hb ▸ hq
      · exact le_trans (h.1 b hb) hq
    · simp only [insertDesc, if_neg hq]
      rw [List.sorted_cons]
      refine ⟨?_, ih h.2⟩
      intro b hb
      rcases List.mem_cons.mp ((perm_insertDesc p qs).mem_iff.mp hb) with hb | hb
      · exact hb ▸ le_of_not_le hq
      · exact h.1 b hb

theorem perm_sortByDateDesc (l : List Post) : (sortByDateDesc l).Perm l := by
  induction l with
  | nil => exact List.Perm.refl _
  | cons p ps ih => exact (perm_insertDesc p (sortByDateDesc ps)).trans (ih.cons p)

theorem sorted_sortByDateDesc (l : List Post) :
    List.Sorted (fun a b : Post => b.date ≤ a.date) (sortByDateDesc l) := by
  induction l with
  | nil => simp [sortByDateDesc]
  | cons p ps ih => exact sorted_insertDesc p _ ih

/-- Saving a mutated document: when `findById` returned `p` and the
mutation `f` does not change the id, the stored document afterwards is
`f p`. -/
theorem findPost_save (store : List Post) (pid : String) (p : Post)
    (f : Post → Post) (hf : findPost store pid = some p)
    (hid : (f p).id = p.id) :
    findPost (updateFirst (fun q => q.id == pid) f store) pid = some (f p) := by
  have hf' : store.find? (fun q => q.id == pid) = some p := hf
  have hp0 : (fun q : Post => q.id == pid) p = true :=
    List.find?_some (p := fun q : Post => q.id == pid) (a := p) hf'
  have hp : (p.id == pid) = true := hp0
  have hfp : ((f p).id == pid) = true := by rw [hid]; exact hp
  exact find?_updateFirst _ f store p hf' hfp

/-! ### Concrete fixtures used by counterexamples and witnesses -/

def pidA : String := "aaaaaaaaaaaaaaaaaaaaaaaa"

def pidMissing : String := "eeeeeeeeeeeeeeeeeeeeeeee"

def cidA : String := "dddddddddddddddddddddddd"

def cidMissing : String := "ffffffffffffffffffffffff"

def uidOwner : String := "owner0000000000000000000"

def uidOther : String := "other0000000000000000000"

def commentA : Comment :=
  { id := cidA, user := uidOwner, text := "first", name := "Owner",
    avatar := "av1", date := 3 }

def postA : Post :=
  { id := pidA, user := uidOwner, text := "hello", name := "Owner",
    avatar := "av1", likes := [{ user := uidOwner }], comments := [commentA],
    date := 5 }

def userOther : User := { id := uidOther, name := "Other", avatar := "av2" }

/-! ### Claim theorems -/

/-- C1, counterexample: the claim fails for `PUT /posts/:id`.  With a
store holding one post owned by `uidOwner`, a request by `uidOther`
(a non-owner) with valid text is answered 200, not 401, and the stored
post's text changes. -/
theorem C1_put_no_ownership_counterexample :
    ¬(postA.user = uidOther) ∧
      (updatePost [postA] pidA uidOther (some "edited")).1.status = 200 ∧
      ¬((updatePost [postA] pidA uidOther (some "edited")).1.status = 401) ∧
      ¬((updatePost [postA] pidA uidOther (some "edited")).2 = [postA]) := by
  decide

/-- C1, amended: for every stored post and authenticated non-owner,
`DELETE /posts/:id` returns 401 and leaves the store unchanged, but
`PUT /posts/:id` performs no ownership check: with valid text it answers
200 and rewrites the post's text regardless of the requester. -/
theorem C1_delete_401_put_unchecked
    (store : List Post) (pid uid t : String) (p : Post)
    (hv : isValidObjectId pid = true)
    (hf : findPost store pid = some p)
    (hown : ¬(p.user = uid))
    (ht : ¬(t = "")) :
    deletePost store pid uid =
      ({ status := 401, msg := some "User not authorized" }, store) ∧
    (updatePost store pid uid (some t)).1.status = 200 ∧
    (updatePost store pid uid (some t)).2 =
      updateFirst (fun q => q.id == pid) (setPostText t) store := by
  have hbeq : (p.user == uid) = false := beq_eq_false_iff_ne.mpr hown
  have htb : (t == "") = false := beq_eq_false_iff_ne.mpr ht
  refine ⟨?_, ?_, ?_⟩ <;> simp [deletePost, updatePost, hv, hf, hbeq, htb]

/-- C1 witness: the amended theorem applied to a concrete store. -/
theorem C1_delete_401_put_unchecked_witness :
    (isValidObjectId pidA = true ∧ findPost [postA] pidA = some postA ∧
      ¬(postA.user = uidOther) ∧ ¬("edited" = "")) ∧
    (deletePost [postA] pidA uidOther =
        ({ status := 401, msg := some "User not authorized" }, [postA]) ∧
      (updatePost [postA] pidA uidOther (some "edited")).1.status = 200 ∧
      (updatePost [postA] pidA uidOther (some "edited")).2 =
        updateFirst (fun q => q.id == pidA) (setPostText "edited") [postA]) :=
  ⟨⟨by decide, by decide, by decide, by decide⟩,
    C1_delete_401_put_unchecked [postA] pidA uidOther "edited" postA
      (by decide) (by decide) (by decide) (by decide)⟩

/-- C3: `GET /posts` returns every post in the store (the result is a
permutation of the store) ordered by descending creation time. -/
theorem C3_getPosts_sorted_desc (store : List Post) :
    (getPosts store).Perm store ∧
      List.Sorted (fun a b : Post => b.date ≤ a.date) (getPosts store) :=
  ⟨perm_sortByDateDesc store, sorted_sortByDateDesc store⟩

/-- C2: a user may like a post at most once.  If the requester already
appears in the likes list, `PUT /posts/like/:id` answers 400 "Post
already liked" and leaves the store unchanged; otherwise it answers 200
and the stored post gains exactly one like record for that user. -/
theorem C2_like_at_most_once
    (store : List Post) (pid uid : String) (p : Post)
    (hv : isValidObjectId pid = true)
    (hf : findPost store pid = some p) :
    (p.likes.any (fun l => l.user == uid) = true →
      likePost store pid uid =
        ({ status := 400, msg := some "Post already liked" }, store)) ∧
    (p.likes.any (fun l => l.user == uid) = false →
      (likePost store pid uid).1.status = 200 ∧
      findPost (likePost store pid uid).2 pid =
        some { p with likes := { user := uid } :: p.likes } ∧
      ({ user := uid } :: p.likes).countP (fun l => l.user == uid) = 1) := by
  constructor
  · intro hl
    simp [likePost, hv, hf, hl]
  · intro hl
    refine ⟨?_, ?_, ?_⟩
    · simp [likePost, hv, hf, hl]
    · have hsave := findPost_save store pid p (addLikeTo uid) hf rfl
      simpa [likePost, hv, hf, hl] using hsave
    · have h0 : p.likes.countP (fun l => l.user == uid) = 0 :=
        List.countP_eq_zero.mpr (List.any_eq_false.mp hl)
      simp [List.countP_cons, h0]

/-- C2 witness: liking `postA` twice as its existing liker is rejected,
and a fresh user's like is recorded once. -/
theorem C2_like_at_most_once_witness :
    (isValidObjectId pidA = true ∧ findPost [postA] pidA = some postA ∧
      postA.likes.any (fun l => l.user == uidOwner) = true ∧
      postA.likes.any (fun l => l.user == uidOther) = false) ∧
    likePost [postA] pidA uidOwner =
      ({ status := 400, msg := some "Post already liked" }, [postA]) ∧
    (likePost [postA] pidA uidOther).1.status = 200 :=
  ⟨⟨by decide, by decide, by decide, by decide⟩,
    (C2_like_at_most_once [postA] pidA uidOwner postA
      (by decide) (by decide)).1 (by decide),
    ((C2_like_at_most_once [postA] pidA uidOther postA
      (by decide) (by decide)).2 (by decide)).1⟩

/-- C5: unliking a post the requester never liked is rejected with 400
"Post has not yet been liked" and the store is unchanged; otherwise the
stored post loses exactly one like record — the requester's — and every
other user's like is left in place. -/
theorem C5_unlike_removes_one
    (store : List Post) (pid uid : String) (p : Post)
    (hv : isValidObjectId pid = true)
    (hf : findPost store pid = some p) :
    (p.likes.any (fun l => l.user == uid) = false →
      unlikePost store pid uid =
        ({ status := 400, msg := some "Post has not yet been liked" }, store)) ∧
    (p.likes.any (fun l => l.user == uid) = true →
      (unlikePost store pid uid).1.status = 200 ∧
      findPost (unlikePost store pid uid).2 pid =
        some { p with likes := removeFirst (fun l => l.user == uid) p.likes } ∧
      (removeFirst (fun l => l.user == uid) p.likes).length + 1 = p.likes.length ∧
      (removeFirst (fun l => l.user == uid) p.likes).countP
          (fun l => l.user == uid) + 1 =
        p.likes.countP (fun l => l.user == uid) ∧
      (removeFirst (fun l => l.user == uid) p.likes).filter
          (fun l => !(l.user == uid)) =
        p.likes.filter (fun l => !(l.user == uid))) := by
  constructor
  · intro hl
    simp [unlikePost, hv, hf, hl]
  · intro hl
    refine ⟨?_, ?_, ?_, ?_, ?_⟩
    · simp [unlikePost, hv, hf, hl]
    · have hsave := findPost_save store pid p (removeLikeOf uid) hf rfl
      simpa [unlikePost, hv, hf, hl] using hsave
    · exact length_removeFirst_of_any _ _ hl
    · exact countP_removeFirst_of_any _ _ hl
    · exact filter_not_removeFirst _ _

/-- C5 witness: unliking as a user who never liked is rejected; the
existing liker's unlike removes that single like. -/
theorem C5_unlike_removes_one_witness :
    (isValidObjectId pidA = true ∧ findPost [postA] pidA = some postA ∧
      postA.likes.any (fun l => l.user == uidOther) = false ∧
      postA.likes.any (fun l => l.user == uidOwner) = true) ∧
    unlikePost [postA] pidA uidOther =
      ({ status := 400, msg := some "Post has not yet been liked" }, [postA]) ∧
    (unlikePost [postA] pidA uidOwner).1.status = 200 ∧
    (removeFirst (fun l => l.user == uidOwner) postA.likes).length + 1 =
      postA.likes.length :=
  ⟨⟨by decide, by decide, by decide, by decide⟩,
    (C5_unlike_removes_one [postA] pidA uidOther postA
      (by decide) (by decide)).1 (by decide),
    ((C5_unlike_removes_one [postA] pidA uidOwner postA
      (by decide) (by decide)).2 (by decide)).1,
    ((C5_unlike_removes_one [postA] pidA uidOwner postA
      (by decide) (by decide)).2 (by decide)).2.2.1⟩

/-- C4: deleting a non-existent post returns 404, and deleting a
non-existent comment of an existing post returns 404; but deleting a
comment under a well-formed post id that matches no post is answered
500, not 404 — the handler dereferences the null post before its own
`if (!post)` test, so its 404 "Post does not exist" branch is dead
code. -/
theorem C4_missing_resource_404_bug :
    (deletePost [] pidMissing uidOther).1.status = 404 ∧
    deleteComment [postA] pidA cidMissing uidOwner =
      ({ status := 404, msg := some "Comment does not exist" }, [postA]) ∧
    deleteComment [] pidMissing cidA uidOther = (serverErrorResp, []) ∧
    serverErrorResp.status = 500 := by
  decide

/-- C6: for an existing post and an existing comment on it, both
`DELETE /posts/comment/:id/:cid` and `PUT /posts/comment/:id/:cid` by a
requester who does not own the comment answer 401 and leave the store
(hence the comments list) unchanged. -/
theorem C6_comment_nonowner_401
    (store : List Post) (pid cid uid t : String) (p : Post) (c : Comment)
    (hvp : isValidObjectId pid = true)
    (hvc : isValidObjectId cid = true)
    (hf : findPost store pid = some p)
    (hc : p.comments.find? (fun x => x.id == cid) = some c)
    (hown : ¬(c.user = uid))
    (ht : ¬(t = "")) :
    deleteComment store pid cid uid =
      ({ status := 401, msg := some "User not authorized" }, store) ∧
    editComment store pid cid uid (some t) =
      ({ status := 401, msg := some "User not authorized" }, store) := by
  have hbeq : (c.user == uid) = false := beq_eq_false_iff_ne.mpr hown
  have htb : (t == "") = false := beq_eq_false_iff_ne.mpr ht
  constructor <;>
    simp [deleteComment, editComment, hvp, hvc, hf, hc, hbeq, htb]

/-- C6 witness: a non-owner's delete and edit of `commentA` are both
rejected with 401. -/
theorem C6_comment_nonowner_401_witness :
    (isValidObjectId pidA = true ∧ isValidObjectId cidA = true ∧
      findPost [postA] pidA = some postA ∧
      postA.comments.find? (fun x => x.id == cidA) = some commentA ∧
      ¬(commentA.user = uidOther) ∧ ¬("x" = "")) ∧
    deleteComment [postA] pidA cidA uidOther =
      ({ status := 401, msg := some "User not authorized" }, [postA]) ∧
    editComment [postA] pidA cidA uidOther (some "x") =
      ({ status := 401, msg := some "User not authorized" }, [postA]) :=
  ⟨⟨by decide, by decide, by decide, by decide, by decide, by decide⟩,
    (C6_comment_nonowner_401 [postA] pidA cidA uidOther "x" postA commentA
      (by decide) (by decide) (by decide) (by decide) (by decide) (by decide)).1,
    (C6_comment_nonowner_401 [postA] pidA cidA uidOther "x" postA commentA
      (by decide) (by decide) (by decide) (by decide) (by decide) (by decide)).2⟩

/-- C7, counterexample: with a well-formed post id matching no post,
the like and unlike handlers answer 500 "Server Error" (the null post
is dereferenced and the exception caught), and the comment-add handler
sends no response at all (its catch binds the exception as `error` but
reads `err.message`, so the catch itself raises) — none of the three
returns the 404 the claim requires. -/
theorem C7_missing_post_counterexample :
    isValidObjectId pidMissing = true ∧
    findPost ([] : List Post) pidMissing = none ∧
    (likePost [] pidMissing uidOther).1.status = 500 ∧
    ¬((likePost [] pidMissing uidOther).1.status = 404) ∧
    (unlikePost [] pidMissing uidOther).1.status = 500 ∧
    ¬((unlikePost [] pidMissing uidOther).1.status = 404) ∧
    (addComment [userOther] [] pidMissing uidOther (some "hi") cidA 0).1 = none := by
  decide

/-- C7, amended: for every well-formed post id matching no stored post,
`PUT /posts/like/:id` and `PUT /posts/unlike/:id` answer 500
"Server Error" (the missing post is dereferenced and the exception
caught), and `POST /posts/comment/:id` sends no response at all (its
catch block itself raises a ReferenceError); all three leave the store
unchanged and none returns 404. -/
theorem C7_missing_post_500
    (users : List User) (store : List Post) (pid uid t ncid : String)
    (u : User) (now : Nat)
    (hv : isValidObjectId pid = true)
    (hmiss : findPost store pid = none)
    (hu : users.find? (fun x => x.id == uid) = some u)
    (ht : ¬(t = "")) :
    likePost store pid uid = (serverErrorResp, store) ∧
    unlikePost store pid uid = (serverErrorResp, store) ∧
    addComment users store pid uid (some t) ncid now = (none, store) := by
  have htb : (t == "") = false := beq_eq_false_iff_ne.mpr ht
  refine ⟨?_, ?_, ?_⟩ <;>
    simp [likePost, unlikePost, addComment, hv, hmiss, hu, htb]

/-- C7 witness: the amended theorem at the concrete empty store. -/
theorem C7_missing_post_500_witness :
    (isValidObjectId pidMissing = true ∧
      findPost ([] : List Post) pidMissing = none ∧
      [userOther].find? (fun x => x.id == uidOther) = some userOther ∧
      ¬("hi" = "")) ∧
    likePost [] pidMissing uidOther = (serverErrorResp, []) ∧
    unlikePost [] pidMissing uidOther = (serverErrorResp, []) ∧
    addComment [userOther] [] pidMissing uidOther (some "hi") cidA 0 =
      (none, []) :=
  ⟨⟨by decide, by decide, by decide, by decide⟩,
    (C7_missing_post_500 [userOther] [] pidMissing uidOther "hi" cidA userOther 0
      (by decide) (by decide) (by decide) (by decide)).1,
    (C7_missing_post_500 [userOther] [] pidMissing uidOther "hi" cidA userOther 0
      (by decide) (by decide) (by decide) (by decide)).2.1,
    (C7_missing_post_500 [userOther] [] pidMissing uidOther "hi" cidA userOther 0
      (by decide) (by decide) (by decide) (by decide)).2.2⟩

/-- C8: a missing or empty text field makes `POST /posts`,
`PUT /posts/:id`, `POST /posts/comment/:id` and
`PUT /posts/comment/:id/:cid` answer 400 and leave the store unchanged;
when the ids are well-formed the 400 carries the validation error list
("Text is required"). -/
theorem C8_empty_text_400
    (users : List User) (store : List Post) (pid cid uid nid ncid : String)
    (now : Nat) (text : Option String)
    (h : text = none ∨ text = some "") :
    createPost users store uid text nid now = (some textRequiredResp, store) ∧
    (updatePost store pid uid text).1.status = 400 ∧
    (updatePost store pid uid text).2 = store ∧
    (isValidObjectId pid = true →
      updatePost store pid uid text = (textRequiredResp, store)) ∧
    addComment users store pid uid text ncid now = (some textRequiredResp, store) ∧
    (editComment store pid cid uid text).1.status = 400 ∧
    (editComment store pid cid uid text).2 = store ∧
    (isValidObjectId pid = true → isValidObjectId cid = true →
      editComment store pid cid uid text = (textRequiredResp, store)) := by
  have hup : ∀ hv : Bool, hv = isValidObjectId pid →
      (updatePost store pid uid text).1.status = 400 ∧
      (updatePost store pid uid text).2 = store := by
    intro hv hveq
    rcases h with h | h <;> subst h <;> cases hv <;>
      simp [updatePost, ← hveq, invalidIdResp, textRequiredResp]
  have hed : ∀ hv hvc : Bool, hv = isValidObjectId pid →
      hvc = isValidObjectId cid →
      (editComment store pid cid uid text).1.status = 400 ∧
      (editComment store pid cid uid text).2 = store := by
    intro hv hvc hveq hvceq
    rcases h with h | h <;> subst h <;> cases hv <;> cases hvc <;>
      simp [editComment, ← hveq, ← hvceq, invalidIdResp, textRequiredResp]
  refine ⟨?_, (hup _ rfl).1, (hup _ rfl).2, ?_, ?_, (hed _ _ rfl rfl).1,
    (hed _ _ rfl rfl).2, ?_⟩
  · rcases h with h | h <;> subst h <;> simp [createPost]
  · intro hv
    rcases h with h | h <;> subst h <;> simp [updatePost, hv]
  · rcases h with h | h <;> subst h <;> simp [addComment]
  · intro hv hvc
    rcases h with h | h <;> subst h <;> simp [editComment, hv, hvc]

/-- C8 witness: the theorem applied with an empty text body. -/
theorem C8_empty_text_400_witness :
    ((some "" : Option String) = none ∨ (some "" : Option String) = some "") ∧
    createPost [userOther] [postA] uidOther (some "") pidMissing 9 =
      (some textRequiredResp, [postA]) ∧
    updatePost [postA] pidA uidOther (some "") = (textRequiredResp, [postA]) ∧
    addComment [userOther] [postA] pidA uidOther (some "") cidMissing 9 =
      (some textRequiredResp, [postA]) ∧
    editComment [postA] pidA cidA uidOther (some "") = (textRequiredResp, [postA]) :=
  ⟨Or.inr rfl,
    (C8_empty_text_400 [userOther] [postA] pidA cidA uidOther pidMissing
      cidMissing 9 (some "") (Or.inr rfl)).1,
    (C8_empty_text_400 [userOther] [postA] pidA cidA uidOther pidMissing
      cidMissing 9 (some "") (Or.inr rfl)).2.2.2.1 (by decide),
    (C8_empty_text_400 [userOther] [postA] pidA cidA uidOther pidMissing
      cidMissing 9 (some "") (Or.inr rfl)).2.2.2.2.1,
    (C8_empty_text_400 [userOther] [postA] pidA cidA uidOther pidMissing
      cidMissing 9 (some "") (Or.inr rfl)).2.2.2.2.2.2.2 (by decide) (by decide)⟩

/-- C9: every route taking a post id except `POST /posts/comment/:id`
runs the `checkObjectId` middleware: with a malformed post id they all
answer 400 "Invalid ID" with the store untouched (for any store, i.e.
before any database access), while the comment-add route never produces
the "Invalid ID" response. -/
theorem C9_checkObjectId_coverage
    (users : List User) (store : List Post) (pid cid uid ncid : String)
    (now : Nat) (text : Option String)
    (hv : isValidObjectId pid = false) :
    getPost store pid = (invalidIdResp, store) ∧
    deletePost store pid uid = (invalidIdResp, store) ∧
    updatePost store pid uid text = (invalidIdResp, store) ∧
    likePost store pid uid = (invalidIdResp, store) ∧
    unlikePost store pid uid = (invalidIdResp, store) ∧
    deleteComment store pid cid uid = (invalidIdResp, store) ∧
    editComment store pid cid uid text = (invalidIdResp, store) ∧
    (∀ r, (addComment users store pid uid text ncid now).1 = some r →
      r.msg ≠ some "Invalid ID") := by
  refine ⟨?_, ?_, ?_, ?_, ?_, ?_, ?_, ?_⟩
  · simp [getPost, hv]
  · simp [deletePost, hv]
  · simp [updatePost, hv]
  · simp [likePost, hv]
  · simp [unlikePost, hv]
  · simp [deleteComment, hv]
  · simp [editComment, hv]
  · intro r hr
    cases htext : text with
    | none =>
      rw [htext] at hr
      simp [addComment] at hr
      subst hr
      decide
    | some t =>
      rw [htext] at hr
      cases htb : (t == "") with
      | true =>
        simp [addComment, htb] at hr
        subst hr
        decide
      | false =>
        cases hu : users.find? (fun x => x.id == uid) with
        | none => simp [addComment, htb, hu] at hr
        | some u =>
          cases hp : findPost store pid with
          | none => simp [addComment, htb, hu, hp] at hr
          | some q =>
            simp [addComment, htb, hu, hp] at hr
            subst hr
            decide

/-- C9 witness: the theorem at a malformed id ("nope"). -/
theorem C9_checkObjectId_coverage_witness :
    isValidObjectId "nope" = false ∧
    likePost [postA] "nope" uidOther = (invalidIdResp, [postA]) ∧
    editComment [postA] "nope" cidMissing uidOther (some "hi") =
      (invalidIdResp, [postA]) :=
  ⟨by decide,
    (C9_checkObjectId_coverage [userOther] [postA] "nope" cidMissing uidOther
      cidMissing 9 (some "hi") (by decide)).2.2.2.1,
    (C9_checkObjectId_coverage [userOther] [postA] "nope" cidMissing uidOther
      cidMissing 9 (some "hi") (by decide)).2.2.2.2.2.2.1⟩

/-- C10: successful like, unlike, comment-add, comment-delete and
comment-edit leave the post's `text`, `name`, `avatar`, `user` and
`date` fields unchanged; like/unlike also leave `comments` unchanged,
the comment operations leave `likes` unchanged, and a successful
comment edit changes only the `text` of the single matched comment,
keeping its `user`, `name`, `avatar` and `date` and all other comments
in place. -/
theorem C10_success_frame
    (users : List User) (store : List Post)
    (pid cid uidL uidU uidA t ncid : String) (now : Nat)
    (p : Post) (c : Comment) (u : User)
    (hv : isValidObjectId pid = true)
    (hvc : isValidObjectId cid = true)
    (hf : findPost store pid = some p)
    (hc : p.comments.find? (fun x => x.id == cid) = some c)
    (hu : users.find? (fun x => x.id == uidA) = some u)
    (hlike : p.likes.any (fun l => l.user == uidL) = false)
    (hunlike : p.likes.any (fun l => l.user == uidU) = true)
    (ht : ¬(t = "")) :
    (∃ p₁, findPost (likePost store pid uidL).2 pid = some p₁ ∧
      p₁.text = p.text ∧ p₁.name = p.name ∧ p₁.avatar = p.avatar ∧
      p₁.user = p.user ∧ p₁.date = p.date ∧ p₁.comments = p.comments) ∧
    (∃ p₂, findPost (unlikePost store pid uidU).2 pid = some p₂ ∧
      p₂.text = p.text ∧ p₂.name = p.name ∧ p₂.avatar = p.avatar ∧
      p₂.user = p.user ∧ p₂.date = p.date ∧ p₂.comments = p.comments) ∧
    (∃ p₃, findPost (addComment users store pid uidA (some t) ncid now).2 pid =
        some p₃ ∧
      p₃.text = p.text ∧ p₃.name = p.name ∧ p₃.avatar = p.avatar ∧
      p₃.user = p.user ∧ p₃.date = p.date ∧ p₃.likes = p.likes) ∧
    (∃ p₄, findPost (deleteComment store pid cid c.user).2 pid = some p₄ ∧
      p₄.text = p.text ∧ p₄.name = p.name ∧ p₄.avatar = p.avatar ∧
      p₄.user = p.user ∧ p₄.date = p.date ∧ p₄.likes = p.likes) ∧
    (∃ p₅, findPost (editComment store pid cid c.user (some t)).2 pid = some p₅ ∧
      p₅.text = p.text ∧ p₅.name = p.name ∧ p₅.avatar = p.avatar ∧
      p₅.user = p.user ∧ p₅.date = p.date ∧ p₅.likes = p.likes ∧
      p₅.comments =
        updateFirst (fun x => x.id == cid) (fun x => { x with text := t })
          p.comments ∧
      ∃ c₅, p₅.comments.find? (fun x => x.id == cid) = some c₅ ∧
        c₅.text = t ∧ c₅.user = c.user ∧ c₅.name = c.name ∧
        c₅.avatar = c.avatar ∧ c₅.date = c.date ∧
        p₅.comments.filter (fun x => !(x.id == cid)) =
          p.comments.filter (fun x => !(x.id == cid))) := by
  have htb : (t == "") = false := beq_eq_false_iff_ne.mpr ht
  refine ⟨?_, ?_, ?_, ?_, ?_⟩
  · have hres : (likePost store pid uidL).2 =
        updateFirst (fun q => q.id == pid) (addLikeTo uidL) store := by
      simp [likePost, hv, hf, hlike]
    refine ⟨addLikeTo uidL p, ?_, rfl, rfl, rfl, rfl, rfl, rfl⟩
    rw [hres]
    exact findPost_save store pid p (addLikeTo uidL) hf rfl
  · have hres : (unlikePost store pid uidU).2 =
        updateFirst (fun q => q.id == pid) (removeLikeOf uidU) store := by
      simp [unlikePost, hv, hf, hunlike]
    refine ⟨removeLikeOf uidU p, ?_, rfl, rfl, rfl, rfl, rfl, rfl⟩
    rw [hres]
    exact findPost_save store pid p (removeLikeOf uidU) hf rfl
  · have hres : (addComment users store pid uidA (some t) ncid now).2 =
        updateFirst (fun q => q.id == pid)
          (addCommentTo
            { id := ncid, user := uidA, text := t, name := u.name,
              avatar := u.avatar, date := now }) store := by
      simp [addComment, htb, hu, hf]
    refine ⟨addCommentTo
        { id := ncid, user := uidA, text := t, name := u.name,
          avatar := u.avatar, date := now } p, ?_, rfl, rfl, rfl, rfl, rfl, rfl⟩
    rw [hres]
    exact findPost_save store pid p
      (addCommentTo
        { id := ncid, user := uidA, text := t, name := u.name,
          avatar := u.avatar, date := now }) hf rfl
  · have hres : (deleteComment store pid cid c.user).2 =
        updateFirst (fun q => q.id == pid) (removeCommentOf cid) store := by
      simp [deleteComment, hv, hvc, hf, hc]
    refine ⟨removeCommentOf cid p, ?_, rfl, rfl, rfl, rfl, rfl, rfl⟩
    rw [hres]
    exact findPost_save store pid p (removeCommentOf cid) hf rfl
  · have hres : (editComment store pid cid c.user (some t)).2 =
        updateFirst (fun q => q.id == pid) (setCommentText cid t) store := by
      simp [editComment, hv, hvc, hf, hc, htb]
    have hcb : ((fun x : Comment => x.id == cid) c) = true :=
      List.find?_some (p := fun x : Comment => x.id == cid) (a := c) hc
    have hcfind :
        (updateFirst (fun x => x.id == cid) (fun x => { x with text := t })
            p.comments).find? (fun x => x.id == cid) =
          some { c with text := t } :=
      find?_updateFirst _ _ _ c hc hcb
    have hcfilter :
        (updateFirst (fun x => x.id == cid) (fun x => { x with text := t })
            p.comments).filter (fun x => !(x.id == cid)) =
          p.comments.filter (fun x => !(x.id == cid)) :=
      filter_not_updateFirst _ _ _ (fun a ha => ha)
    refine ⟨setCommentText cid t p, ?_, rfl, rfl, rfl, rfl, rfl, rfl, rfl,
      { c with text := t }, ?_, rfl, rfl, rfl, rfl, rfl, ?_⟩
    · rw [hres]
      exact findPost_save store pid p (setCommentText cid t) hf rfl
    · exact hcfind
    · exact hcfilter

/-- C10 witness: the frame theorem at a concrete one-post store. -/
theorem C10_success_frame_witness :
    (isValidObjectId pidA = true ∧ isValidObjectId cidA = true ∧
      findPost [postA] pidA = some postA ∧
      postA.comments.find? (fun x => x.id == cidA) = some commentA ∧
      [userOther].find? (fun x => x.id == uidOther) = some userOther ∧
      postA.likes.any (fun l => l.user == uidOther) = false ∧
      postA.likes.any (fun l => l.user == uidOwner) = true ∧
      ¬("edit" = "")) ∧
    (∃ p₁, findPost (likePost [postA] pidA uidOther).2 pidA = some p₁ ∧
      p₁.text = postA.text ∧ p₁.name = postA.name ∧ p₁.avatar = postA.avatar ∧
      p₁.user = postA.user ∧ p₁.date = postA.date ∧
      p₁.comments = postA.comments) ∧
    (∃ p₅, findPost (editComment [postA] pidA cidA commentA.user (some "edit")).2
        pidA = some p₅ ∧
      p₅.text = postA.text ∧ p₅.name = postA.name ∧ p₅.avatar = postA.avatar ∧
      p₅.user = postA.user ∧ p₅.date = postA.date ∧ p₅.likes = postA.likes ∧
      p₅.comments =
        updateFirst (fun x => x.id == cidA) (fun x => { x with text := "edit" })
          postA.comments ∧
      ∃ c₅, p₅.comments.find? (fun x => x.id == cidA) = some c₅ ∧
        c₅.text = "edit" ∧ c₅.user = commentA.user ∧ c₅.name = commentA.name ∧
        c₅.avatar = commentA.avatar ∧ c₅.date = commentA.date ∧
        p₅.comments.filter (fun x => !(x.id == cidA)) =
          postA.comments.filter (fun x => !(x.id == cidA))) :=
  ⟨⟨by decide, by decide, by decide, by decide, by decide, by decide,
      by decide, by decide⟩,
    (C10_success_frame [userOther] [postA] pidA cidA uidOther uidOwner uidOther
      "edit" cidMissing 9 postA commentA userOther (by decide) (by decide)
      (by decide) (by decide) (by decide) (by decide) (by decide) (by decide)).1,
    (C10_success_frame [userOther] [postA] pidA cidA uidOther uidOwner uidOther
      "edit" cidMissing 9 postA commentA userOther (by decide) (by decide)
      (by decide) (by decide) (by decide) (by decide) (by decide)
      (by decide)).2.2.2.2⟩

end DevSocial
